import Mathlib

/-!
Verification of the generic relational-data-access layer
(`crates/storage_models/src/query/generics.rs`) and the payment-attempt
query facade (`crates/storage_models/src/query/payment_attempt.rs`).

The underlying relational engine, its driver and the connection pool are
external collaborators: each primitive hands the engine a rendered query
(modelled here as an explicit query value) and receives either a result or
a structured failure.  We therefore embed each primitive as a function
parameterized over an `engine` function from query values to engine-level
outcomes (`Except ConnectionError _`), and prove how the primitive
translates those outcomes into the domain error taxonomy, exactly as the
source does.  Error-stack reports are modelled by their current context
(the `DatabaseError` kind); `attach_printable` attaches human-readable
text and never changes the kind, so it is the identity in this model.
-/

/-- Engine-level database error kinds distinguished by the source
(`diesel::result::DatabaseErrorKind`): only `UniqueViolation` is matched
explicitly, all other kinds fall through to the wildcard arm. -/
inductive DatabaseErrorKind where
  | uniqueViolation
  | otherKind
  deriving DecidableEq, Repr

/-- Engine-level errors distinguished by the source (`diesel::result::Error`):
`DatabaseError(kind, _)`, `NotFound`, `QueryBuilderError(_)`, and a
wildcard for every other variant. -/
inductive DieselError where
  | databaseError (kind : DatabaseErrorKind)
  | notFound
  | queryBuilderError
  | otherError
  deriving DecidableEq, Repr

/-- Driver-level errors (`async_bb8_diesel::ConnectionError`): a query error
wrapping a `DieselError`, or any other connection-level failure. -/
inductive ConnectionError where
  | query (err : DieselError)
  | otherConnection
  deriving DecidableEq, Repr

/-- The domain error taxonomy (`errors::DatabaseError`), as listed in the
spec (§7): `UniqueViolation`, `NotFound`, `NoFieldsToUpdate`, `Others`. -/
inductive DatabaseError where
  | uniqueViolation
  | notFound
  | noFieldsToUpdate
  | others
  deriving DecidableEq, Repr

/-- Rust `StorageResult<T>`: a value or an error-stack report whose current
context is a `DatabaseError` kind. -/
abbrev StorageResult (T : Type) : Type := Except DatabaseError T

/-- An UPDATE statement restricted by a predicate and applying a changeset,
as built by `diesel::update(table.filter(predicate)).set(values)`. -/
structure UpdateQuery (P V : Type) where
  predicate : P
  values : V
  deriving DecidableEq, Repr

/-- An UPDATE statement scoped to a primary-key lookup,
as built by `diesel::update(table.find(id)).set(values)`. -/
structure UpdateByIdQuery (Pk V : Type) where
  id : Pk
  values : V
  deriving DecidableEq, Repr

/-- A SELECT restricted by a predicate with an optional LIMIT, as built by
`table.filter(predicate)` and optionally `.limit(l)`. -/
structure FilterQuery (P : Type) where
  predicate : P
  limit : Option Int
  deriving DecidableEq, Repr

/-- A SELECT restricted by a predicate with an ORDER BY expression and a
mandatory LIMIT, as built by
`table.filter(predicate).order(expr).limit(l)`. -/
structure OrderedFilterQuery (P E : Type) where
  predicate : P
  order : E
  limit : Int
  deriving DecidableEq, Repr

/-- Source `generic_update_with_results`: builds the predicate-scoped UPDATE,
executes it, and maps every engine failure to `Others`
(`change_context(errors::DatabaseError::Others)`). -/
def generic_update_with_results {P V R : Type}
    (engine : UpdateQuery P V → Except ConnectionError (List R))
    (predicate : P) (values : V) : StorageResult (List R) :=
  match engine ⟨predicate, values⟩ with
  | .ok rows => .ok rows
  | .error _ => .error .others

/-- Source `generic_find_by_id_core`: a plain primary-key lookup; the engine's
`NotFound` maps to `NotFound`, every other failure to `Others`. -/
def generic_find_by_id_core {Pk R : Type}
    (engine : Pk → Except ConnectionError R) (id : Pk) : StorageResult R :=
  match engine id with
  | .ok value => .ok value
  | .error (.query .notFound) => .error .notFound
  | .error _ => .error .others

/-- Source `generic_update_by_id`: runs the key-scoped UPDATE; on success returns
the updated row; on a `QueryBuilderError` falls back to
`generic_find_by_id_core`; on the engine's `NotFound` fails `NotFound`;
every other failure maps to `Others`.  `updateEngine` executes the UPDATE
statement, `findEngine` the fallback key lookup. -/
def generic_update_by_id {Pk V R : Type}
    (updateEngine : UpdateByIdQuery Pk V → Except ConnectionError R)
    (findEngine : Pk → Except ConnectionError R)
    (id : Pk) (values : V) : StorageResult R :=
  match updateEngine ⟨id, values⟩ with
  | .ok result => .ok result
  | .error (.query .queryBuilderError) => generic_find_by_id_core findEngine id
  | .error (.query .notFound) => .error .notFound
  | .error _ => .error .others

/-- Source `generic_delete`: builds the predicate-scoped DELETE, maps any engine
failure to `Others`, then inspects the affected-row count: positive counts
yield `true`, a zero count fails `NotFound` ("No records deleted"). -/
def generic_delete {P : Type}
    (engine : P → Except ConnectionError Nat) (predicate : P) :
    StorageResult Bool :=
  match (match engine predicate with
         | .ok n => (.ok n : StorageResult Nat)
         | .error _ => .error .others) with
  | .error e => .error e
  | .ok n => if n > 0 then .ok true else .error .notFound

/-- Source `generic_find_by_id`: delegates to `generic_find_by_id_core`. -/
def generic_find_by_id {Pk R : Type}
    (engine : Pk → Except ConnectionError R) (id : Pk) : StorageResult R :=
  generic_find_by_id_core engine id

/-- Source `to_optional`: maps a success to `Ok(Some(_))`, a report whose current
context is `NotFound` to `Ok(None)`, and propagates every other report
unchanged. -/
def to_optional {T : Type} (arg : StorageResult T) : StorageResult (Option T) :=
  match arg with
  | .ok value => .ok (some value)
  | .error err => match err with
    | DatabaseError.notFound => .ok none
    | _ => .error err

/-- Source `generic_find_by_id_optional`: the core key lookup through
`to_optional`. -/
def generic_find_by_id_optional {Pk R : Type}
    (engine : Pk → Except ConnectionError R) (id : Pk) :
    StorageResult (Option R) :=
  to_optional (generic_find_by_id_core engine id)

/-- Source `generic_find_one_core`: a predicate-scoped single-row lookup; the
engine's `NotFound` maps to `NotFound`, every other failure to `Others`. -/
def generic_find_one_core {P R : Type}
    (engine : P → Except ConnectionError R) (predicate : P) : StorageResult R :=
  match engine predicate with
  | .ok value => .ok value
  | .error (.query .notFound) => .error .notFound
  | .error _ => .error .others

/-- Source `generic_find_one`: delegates to `generic_find_one_core`. -/
def generic_find_one {P R : Type}
    (engine : P → Except ConnectionError R) (predicate : P) : StorageResult R :=
  generic_find_one_core engine predicate

/-- Source `generic_find_one_optional`: the core predicate lookup through
`to_optional`. -/
def generic_find_one_optional {P R : Type}
    (engine : P → Except ConnectionError R) (predicate : P) :
    StorageResult (Option R) :=
  to_optional (generic_find_one_core engine predicate)

/-- Source `generic_filter`: builds the predicate-scoped SELECT, applying
`.limit(l)` only when an explicit limit is given, and maps any engine
failure to `NotFound` (`change_context(errors::DatabaseError::NotFound)`). -/
def generic_filter {P R : Type}
    (engine : FilterQuery P → Except ConnectionError (List R))
    (predicate : P) (limit : Option Int) : StorageResult (List R) :=
  match (match limit with
         | some l => engine ⟨predicate, some l⟩
         | none => engine ⟨predicate, none⟩) with
  | .ok rows => .ok rows
  | .error _ => .error .notFound

/-- Source `generic_filter_order`: builds the SELECT with the given predicate, the
given ORDER BY expression and `.limit(limit.unwrap_or(100))`, and maps any
engine failure to `NotFound`. -/
def generic_filter_order {P E R : Type}
    (engine : OrderedFilterQuery P E → Except ConnectionError (List R))
    (predicate : P) (limit : Option Int) (expr : E) : StorageResult (List R) :=
  match engine ⟨predicate, expr, limit.getD 100⟩ with
  | .ok rows => .ok rows
  | .error _ => .error .notFound

/-!
The payment-attempt entity facade.  The entity struct, its changeset types
and the `AttemptStatus` enum live outside the two query modules; here we
keep only the fields and variants those modules actually touch:
`payment_id`, `merchant_id`, `attempt_id`, `connector_transaction_id`,
`status` and `created_at` (a timestamp, modelled as an integer), plus the
`Charged` status variant matched by the status-filtered scan.
-/

/-- Attempt status (`enums::AttemptStatus`); the query module only ever
names `Charged`, so the other variants are collapsed. -/
inductive AttemptStatus where
  | charged
  | otherStatus
  deriving DecidableEq, Repr

/-- The payment-attempt row, restricted to the columns the query module
reads or filters on. -/
structure PaymentAttempt where
  payment_id : String
  merchant_id : String
  attempt_id : String
  connector_transaction_id : String
  status : AttemptStatus
  created_at : Int
  deriving DecidableEq, Repr

/-- The payment-attempt changeset handed to `update`; its column contents
are never inspected by the query module, so it is kept abstract as a list
of column assignments. -/
structure PaymentAttemptUpdate where
  assignments : List (String × String)
  deriving DecidableEq, Repr

/-- Source `PaymentAttemptUpdateInternal`: what `PaymentAttemptUpdate` is
converted into (`PaymentAttemptUpdateInternal::from`) before being passed
as the changeset. -/
structure PaymentAttemptUpdateInternal where
  assignments : List (String × String)
  deriving DecidableEq, Repr

/-- The `From<PaymentAttemptUpdate>` conversion. -/
def PaymentAttemptUpdateInternal.from (u : PaymentAttemptUpdate) :
    PaymentAttemptUpdateInternal :=
  ⟨u.assignments⟩

/-- The diesel predicate expressions the payment-attempt facade builds:
column-equality atoms (`dsl::<column>.eq(value)`) and conjunction
(`.and(..)`). -/
inductive PredExpr where
  | paymentIdEq (value : String)
  | merchantIdEq (value : String)
  | attemptIdEq (value : String)
  | connectorTransactionIdEq (value : String)
  | statusEq (value : AttemptStatus)
  | and (left right : PredExpr)
  deriving DecidableEq, Repr

/-- Whether a row satisfies a predicate expression (the engine-side meaning
of the rendered WHERE clause). -/
def PredExpr.eval : PredExpr → PaymentAttempt → Bool
  | .paymentIdEq v, row => row.payment_id = v
  | .merchantIdEq v, row => row.merchant_id = v
  | .attemptIdEq v, row => row.attempt_id = v
  | .connectorTransactionIdEq v, row => row.connector_transaction_id = v
  | .statusEq v, row => row.status = v
  | .and l r, row => l.eval row && r.eval row

/-- The ordering expressions the payment-attempt facade builds:
`dsl::created_at.desc()`. -/
inductive OrderExpr where
  | createdAtDesc
  deriving DecidableEq, Repr

/-- The engine-side row ordering denoted by an ordering expression:
`created_at.desc()` sorts by descending creation time. -/
def OrderExpr.le : OrderExpr → PaymentAttempt → PaymentAttempt → Prop
  | .createdAtDesc, a, b => b.created_at ≤ a.created_at

namespace PaymentAttempt

/-- Source `PaymentAttempt::update`: scopes by
`payment_id.eq(self.payment_id).and(merchant_id.eq(self.merchant_id))` and
calls `generic_update_with_results` with the converted changeset; an error
whose current context is `NoFieldsToUpdate` yields `Ok(self)`, any other
error is propagated; on success, `pop()` takes the last updated row,
failing `NotFound` when the vector is empty. -/
def update (self : PaymentAttempt)
    (engine : UpdateQuery PredExpr PaymentAttemptUpdateInternal →
      Except ConnectionError (List PaymentAttempt))
    (payment_attempt : PaymentAttemptUpdate) : StorageResult PaymentAttempt :=
  match generic_update_with_results engine
      (PredExpr.and (.paymentIdEq self.payment_id)
        (.merchantIdEq self.merchant_id))
      (PaymentAttemptUpdateInternal.from payment_attempt) with
  | .error error => match error with
    | DatabaseError.noFieldsToUpdate => .ok self
    | _ => .error error
  | .ok payment_attempts => match payment_attempts.getLast? with
    | some row => .ok row
    | none => .error DatabaseError.notFound

/-- Source `PaymentAttempt::find_latest_by_payment_id_merchant_id`: first issues
the ordered query through `generic_filter_order` (predicate
`merchant_id.eq(..).and(payment_id.eq(..))`, limit `Some(1)`, order
`created_at.desc()`) and binds the result to `y`, which is never read;
then issues the same filter/order/limit query directly, mapping any engine
failure to `NotFound`. -/
def find_latest_by_payment_id_merchant_id
    (engine : OrderedFilterQuery PredExpr OrderExpr →
      Except ConnectionError (List PaymentAttempt))
    (payment_id merchant_id : String) : StorageResult (List PaymentAttempt) :=
  let y : StorageResult (List PaymentAttempt) :=
    generic_filter_order engine
      (PredExpr.and (.merchantIdEq merchant_id) (.paymentIdEq payment_id))
      (some 1) OrderExpr.createdAtDesc
  let _ := y
  match engine
      ⟨PredExpr.and (.merchantIdEq merchant_id) (.paymentIdEq payment_id),
        OrderExpr.createdAtDesc, 1⟩ with
  | .ok rows => .ok rows
  | .error _ => .error DatabaseError.notFound

/-- The step of the fold the source applies to the fetched rows of
`find_last_successful_attempt_by_payment_id_merchant_id`: keep the
accumulated row only when its `created_at` is strictly greater than the
current row's, otherwise take the current row. -/
def lastSuccessfulStep (acc : StorageResult PaymentAttempt)
    (cur : PaymentAttempt) : StorageResult PaymentAttempt :=
  match acc with
  | .ok value =>
    if value.created_at > cur.created_at then .ok value else .ok cur
  | _ => .ok cur

/-- The fold itself, starting from `Err(NotFound)`. -/
def lastSuccessfulFold (rows : List PaymentAttempt) :
    StorageResult PaymentAttempt :=
  rows.foldl lastSuccessfulStep (.error DatabaseError.notFound)

/-- Source `PaymentAttempt::find_last_successful_attempt_by_payment_id_merchant_id`:
fetches via `generic_filter` with predicate
`payment_id.eq(..).and(merchant_id.eq(..)).and(status.eq(Charged))` and no
limit, propagates its error (`?`), and folds the rows keeping the row with
the maximum `created_at`. -/
def find_last_successful_attempt_by_payment_id_merchant_id
    (engine : FilterQuery PredExpr → Except ConnectionError (List PaymentAttempt))
    (payment_id merchant_id : String) : StorageResult PaymentAttempt :=
  match generic_filter engine
      (PredExpr.and
        (PredExpr.and (.paymentIdEq payment_id) (.merchantIdEq merchant_id))
        (.statusEq AttemptStatus.charged))
      none with
  | .error e => .error e
  | .ok rows => lastSuccessfulFold rows

end PaymentAttempt

/-!  Helper lemmas about the application-level fold. -/

/-- Folding `PaymentAttempt.lastSuccessfulStep` from an `ok` accumulator yields a row of
the extended list whose `created_at` bounds every row of that list. -/
theorem foldl_lastSuccessfulStep_ok (l : List PaymentAttempt) :
    ∀ v : PaymentAttempt, ∃ m,
      l.foldl PaymentAttempt.lastSuccessfulStep (.ok v) = .ok m ∧ m ∈ v :: l ∧
        ∀ x ∈ v :: l, x.created_at ≤ m.created_at := by
  induction l with
  | nil =>
    intro v
    exact ⟨v, rfl, by simp, by simp⟩
  | cons c t ih =>
    intro v
    by_cases hc : v.created_at > c.created_at
    · obtain ⟨m, hm, hmem, hmax⟩ := ih v
      have hv : v.created_at ≤ m.created_at := hmax v (by simp)
      refine ⟨m, ?_, ?_, ?_⟩
      · simpa [PaymentAttempt.lastSuccessfulStep, hc] using hm
      · rcases List.mem_cons.mp hmem with h | h
        · exact h ▸ List.mem_cons_self _ _
        · exact List.mem_cons.mpr (Or.inr (List.mem_cons.mpr (Or.inr h)))
      · intro x hx
        rcases List.mem_cons.mp hx with rfl | hx
        · exact hv
        · rcases List.mem_cons.mp hx with rfl | hx
          · exact le_trans (le_of_lt hc) hv
          · exact hmax x (List.mem_cons.mpr (Or.inr hx))
    · obtain ⟨m, hm, hmem, hmax⟩ := ih c
      have hvc : v.created_at ≤ c.created_at := le_of_not_lt hc
      have hcm : c.created_at ≤ m.created_at := hmax c (by simp)
      refine ⟨m, ?_, ?_, ?_⟩
      · simpa [PaymentAttempt.lastSuccessfulStep, hc] using hm
      · exact List.mem_cons.mpr (Or.inr hmem)
      · intro x hx
        rcases List.mem_cons.mp hx with rfl | hx
        · exact le_trans hvc hcm
        · rcases List.mem_cons.mp hx with rfl | hx
          · exact hcm
          · exact hmax x (List.mem_cons.mpr (Or.inr hx))

/-- On a nonempty row list the fold returns a member row whose
`created_at` is maximal. -/
theorem lastSuccessfulFold_max (rows : List PaymentAttempt)
    (h : rows ≠ []) : ∃ m, PaymentAttempt.lastSuccessfulFold rows = .ok m ∧ m ∈ rows ∧
      ∀ x ∈ rows, x.created_at ≤ m.created_at := by
  cases rows with
  | nil => exact absurd rfl h
  | cons hd t =>
    obtain ⟨m, hm, hmem, hmax⟩ := foldl_lastSuccessfulStep_ok t hd
    exact ⟨m, by simpa [PaymentAttempt.lastSuccessfulFold, PaymentAttempt.lastSuccessfulStep] using hm,
      hmem, hmax⟩

/-- C3: for every engine outcome, `generic_find_one_optional` returns an
empty result iff `generic_find_one` on the same inputs fails `NotFound`,
and for any other failure kind both return the same error; the conversion
is the shared helper `to_optional`, which maps a `NotFound` error to
`Ok(None)`, a success `v` to `Ok(Some(v))`, and propagates every other
error unchanged, and the same helper underlies
`generic_find_by_id_optional` (the key-lookup optional variant). -/
theorem find_one_optional_empty_iff_find_one_notFound
    {P R Pk R2 : Type} (engine : P → Except ConnectionError R) (p : P)
    (keyEngine : Pk → Except ConnectionError R2) (id : Pk) :
    (generic_find_one_optional engine p = .ok none ↔
      generic_find_one engine p = .error DatabaseError.notFound) ∧
    (∀ e, e ≠ DatabaseError.notFound →
      (generic_find_one_optional engine p = .error e ↔
        generic_find_one engine p = .error e)) ∧
    generic_find_one_optional engine p =
      to_optional (generic_find_one engine p) ∧
    generic_find_by_id_optional keyEngine id =
      to_optional (generic_find_by_id keyEngine id) ∧
    (∀ v : R, to_optional (.ok v) = .ok (some v)) ∧
    to_optional (.error DatabaseError.notFound : StorageResult R) =
      .ok none ∧
    (∀ e, e ≠ DatabaseError.notFound →
      to_optional (.error e : StorageResult R) = .error e) := by
  refine ⟨?_, ?_, rfl, rfl, fun v => rfl, rfl, ?_⟩
  · unfold generic_find_one_optional generic_find_one generic_find_one_core
      to_optional
    cases h : engine p with
    | ok v => simp
    | error ce =>
      cases ce with
      | query de => cases de <;> simp
      | otherConnection => simp
  · intro e he
    unfold generic_find_one_optional generic_find_one generic_find_one_core
      to_optional
    cases h : engine p with
    | ok v => cases e <;> simp_all
    | error ce =>
      cases ce with
      | query de => cases de <;> cases e <;> simp_all
      | otherConnection => cases e <;> simp_all
  · intro e he
    cases e <;> simp_all [to_optional]

/-- C4: `generic_delete` returns `true` iff the engine reports one or more
rows deleted, fails `NotFound` iff the engine reports zero rows deleted,
and maps any engine execution failure to `Others` (in particular `true` is
the only success value). -/
theorem delete_true_iff_rows_deleted {P : Type}
    (engine : P → Except ConnectionError Nat) (predicate : P) :
    (generic_delete engine predicate = .ok true ↔
      ∃ n, engine predicate = .ok n ∧ 0 < n) ∧
    (generic_delete engine predicate = .error DatabaseError.notFound ↔
      engine predicate = .ok 0) ∧
    (∀ ce, engine predicate = .error ce →
      generic_delete engine predicate = .error DatabaseError.others) ∧
    (∀ b, generic_delete engine predicate = .ok b → b = true) := by
  unfold generic_delete
  cases h : engine predicate with
  | ok n =>
    rcases Nat.eq_zero_or_pos n with rfl | hn
    · simp
    · refine ⟨?_, ?_, ?_, ?_⟩
      · simp only [if_pos hn]
        constructor
        · intro _
          exact ⟨n, rfl, hn⟩
        · intro _
          trivial
      · simp only [if_pos hn]
        constructor
        · intro hfalse; exact absurd hfalse (by simp)
        · intro h0
          injection h0 with h0
          omega
      · intro ce hce; exact absurd hce (by simp)
      · intro b hb
        simp only [if_pos hn] at hb
        injection hb with hb
        exact hb.symm
  | error ce =>
    refine ⟨by simp, by simp, fun _ _ => rfl, by simp⟩

/-- C5: `generic_filter` maps any engine failure — including the engine's
own "no rows matched" (`NotFound`) condition — to the `NotFound` error
kind, for any predicate and optional limit; it never returns an
`Others`-classified error (every error it returns is `NotFound`). -/
theorem filter_failures_map_to_notFound {P R : Type}
    (engine : FilterQuery P → Except ConnectionError (List R))
    (predicate : P) (limit : Option Int) :
    (∀ ce, engine ⟨predicate, limit⟩ = .error ce →
      generic_filter engine predicate limit = .error DatabaseError.notFound) ∧
    (engine ⟨predicate, limit⟩ = .error (.query .notFound) →
      generic_filter engine predicate limit = .error DatabaseError.notFound) ∧
    (∀ e, generic_filter engine predicate limit = .error e →
      e = DatabaseError.notFound) := by
  cases limit with
  | none =>
    unfold generic_filter
    cases h : engine ⟨predicate, none⟩ <;> simp_all
  | some l =>
    unfold generic_filter
    cases h : engine ⟨predicate, some l⟩ <;> simp_all

/-- C1: `PaymentAttempt::update` scopes the update by the
`(payment_id, merchant_id)` pair and calls `update_with_results`; whenever
the underlying result is the `NoFieldsToUpdate` error it returns the
original unmodified `self` as a success, and any other error is propagated
unchanged; on success it returns the single updated row, failing
`NotFound` when the returned row sequence is empty. -/
theorem payment_attempt_update_policy (self : PaymentAttempt)
    (engine : UpdateQuery PredExpr PaymentAttemptUpdateInternal →
      Except ConnectionError (List PaymentAttempt))
    (changeset : PaymentAttemptUpdate) :
    (generic_update_with_results engine
        (PredExpr.and (.paymentIdEq self.payment_id)
          (.merchantIdEq self.merchant_id))
        (PaymentAttemptUpdateInternal.from changeset) =
        .error DatabaseError.noFieldsToUpdate →
      self.update engine changeset = .ok self) ∧
    (∀ e, e ≠ DatabaseError.noFieldsToUpdate →
      generic_update_with_results engine
        (PredExpr.and (.paymentIdEq self.payment_id)
          (.merchantIdEq self.merchant_id))
        (PaymentAttemptUpdateInternal.from changeset) = .error e →
      self.update engine changeset = .error e) ∧
    (∀ row, generic_update_with_results engine
        (PredExpr.and (.paymentIdEq self.payment_id)
          (.merchantIdEq self.merchant_id))
        (PaymentAttemptUpdateInternal.from changeset) = .ok [row] →
      self.update engine changeset = .ok row) ∧
    (generic_update_with_results engine
        (PredExpr.and (.paymentIdEq self.payment_id)
          (.merchantIdEq self.merchant_id))
        (PaymentAttemptUpdateInternal.from changeset) = .ok [] →
      self.update engine changeset = .error DatabaseError.notFound) := by
  unfold PaymentAttempt.update
  cases hg : generic_update_with_results engine
      (PredExpr.and (.paymentIdEq self.payment_id)
        (.merchantIdEq self.merchant_id))
      (PaymentAttemptUpdateInternal.from changeset) with
  | ok rows =>
    refine ⟨by simp, fun e he h => by simp at h, ?_, ?_⟩
    · intro row hrow
      injection hrow with hrow
      subst hrow
      rfl
    · intro hnil
      injection hnil with hnil
      subst hnil
      rfl
  | error e0 =>
    refine ⟨?_, ?_, fun row h => by simp at h, by simp⟩
    · intro h
      injection h with h
      subst h
      rfl
    · intro e he h
      have he0 : e0 = e := by injection h
      subst he0
      cases e0 <;> simp_all

/-- C9 (implicit): every error returned by `generic_update_with_results`
has the error kind `Others`, so the `NoFieldsToUpdate`-absorbing branch of
`PaymentAttempt::update` is never taken for errors originating from that
primitive: whenever the engine fails, `update` fails with `Others` rather
than succeeding with `self`. -/
theorem update_with_results_error_kind_is_others
    {P V R : Type} (engine : UpdateQuery P V → Except ConnectionError (List R))
    (predicate : P) (values : V) (self : PaymentAttempt)
    (paEngine : UpdateQuery PredExpr PaymentAttemptUpdateInternal →
      Except ConnectionError (List PaymentAttempt))
    (changeset : PaymentAttemptUpdate) :
    (∀ e, generic_update_with_results engine predicate values = .error e →
      e = DatabaseError.others) ∧
    (∀ ce, paEngine ⟨PredExpr.and (.paymentIdEq self.payment_id)
        (.merchantIdEq self.merchant_id),
        PaymentAttemptUpdateInternal.from changeset⟩ = .error ce →
      self.update paEngine changeset = .error DatabaseError.others) := by
  constructor
  · intro e h
    unfold generic_update_with_results at h
    cases hg : engine ⟨predicate, values⟩ <;> simp_all
  · intro ce h
    unfold PaymentAttempt.update generic_update_with_results
    rw [h]

/-- C10 (implicit): when the underlying `update_with_results` call
succeeds with a non-empty sequence of updated rows, `PaymentAttempt::update`
returns the last element of that sequence (`pop`), and only that row is
handed back to the caller. -/
theorem payment_attempt_update_returns_last_row (self : PaymentAttempt)
    (engine : UpdateQuery PredExpr PaymentAttemptUpdateInternal →
      Except ConnectionError (List PaymentAttempt))
    (changeset : PaymentAttemptUpdate) :
    (∀ front last, engine ⟨PredExpr.and (.paymentIdEq self.payment_id)
        (.merchantIdEq self.merchant_id),
        PaymentAttemptUpdateInternal.from changeset⟩ = .ok (front ++ [last]) →
      self.update engine changeset = .ok last) ∧
    (∀ rows, engine ⟨PredExpr.and (.paymentIdEq self.payment_id)
        (.merchantIdEq self.merchant_id),
        PaymentAttemptUpdateInternal.from changeset⟩ = .ok rows →
      rows ≠ [] →
      ∃ last, rows.getLast? = some last ∧
        self.update engine changeset = .ok last) := by
  constructor
  · intro front last h
    unfold PaymentAttempt.update generic_update_with_results
    rw [h]
    simp [List.getLast?_concat]
  · intro rows h hne
    rcases List.eq_nil_or_concat' rows with rfl | ⟨front, last, rfl⟩
    · exact absurd rfl hne
    · refine ⟨last, List.getLast?_concat _, ?_⟩
      unfold PaymentAttempt.update generic_update_with_results
      rw [h]
      simp [List.getLast?_concat]

/-- C2: `generic_update_by_id` falls back to the plain key lookup
(`generic_find_by_id_core`) on an engine query-construction failure and
returns the unmodified current row as a success; the engine's "no matching
row" failure surfaces as `NotFound`; every other engine failure maps to
`Others`.  In particular, when the changeset is degenerate (the engine
reports a query-construction failure) an existing key returns the current
row unchanged, and a non-existent key fails `NotFound` on either path. -/
theorem update_by_id_fallback_policy {Pk V R : Type}
    (updateEngine : UpdateByIdQuery Pk V → Except ConnectionError R)
    (findEngine : Pk → Except ConnectionError R) (id : Pk) (values : V) :
    (updateEngine ⟨id, values⟩ = .error (.query .queryBuilderError) →
      generic_update_by_id updateEngine findEngine id values =
        generic_find_by_id_core findEngine id) ∧
    (∀ row, updateEngine ⟨id, values⟩ = .error (.query .queryBuilderError) →
      findEngine id = .ok row →
      generic_update_by_id updateEngine findEngine id values = .ok row) ∧
    (updateEngine ⟨id, values⟩ = .error (.query .notFound) →
      generic_update_by_id updateEngine findEngine id values =
        .error DatabaseError.notFound) ∧
    (updateEngine ⟨id, values⟩ = .error (.query .queryBuilderError) →
      findEngine id = .error (.query .notFound) →
      generic_update_by_id updateEngine findEngine id values =
        .error DatabaseError.notFound) ∧
    (∀ ce, ce ≠ .query .queryBuilderError → ce ≠ .query .notFound →
      updateEngine ⟨id, values⟩ = .error ce →
      generic_update_by_id updateEngine findEngine id values =
        .error DatabaseError.others) := by
  refine ⟨?_, ?_, ?_, ?_, ?_⟩
  · intro h
    unfold generic_update_by_id
    rw [h]
  · intro row h hf
    unfold generic_update_by_id generic_find_by_id_core
    rw [h, hf]
  · intro h
    unfold generic_update_by_id
    rw [h]
  · intro h hf
    unfold generic_update_by_id generic_find_by_id_core
    rw [h, hf]
  · intro ce h1 h2 h3
    unfold generic_update_by_id
    rw [h3]
    cases ce with
    | query de => cases de <;> simp_all
    | otherConnection => rfl

/-- C6: `generic_filter_order` with no explicit limit hands the engine the
query capped at 100 rows, and with an explicit limit that limit instead;
in both cases the query carries the supplied ordering expression, so an
engine that honors its limit returns at most 100 rows (resp. the explicit
limit) and an engine that orders per its order expression returns rows
ordered per the supplied expression; any engine failure maps to
`NotFound`. -/
theorem filter_order_default_limit_policy {P E R : Type}
    (engine : OrderedFilterQuery P E → Except ConnectionError (List R))
    (predicate : P) (lim : Int) (expr : E) (ord : E → R → R → Prop) :
    (generic_filter_order engine predicate none expr =
      match engine ⟨predicate, expr, 100⟩ with
      | .ok rows => .ok rows
      | .error _ => .error DatabaseError.notFound) ∧
    (generic_filter_order engine predicate (some lim) expr =
      match engine ⟨predicate, expr, lim⟩ with
      | .ok rows => .ok rows
      | .error _ => .error DatabaseError.notFound) ∧
    ((∀ q out, engine q = .ok out → out.length ≤ q.limit.toNat) →
      (∀ out, generic_filter_order engine predicate none expr = .ok out →
        out.length ≤ 100) ∧
      (∀ out, generic_filter_order engine predicate (some lim) expr = .ok out →
        out.length ≤ lim.toNat)) ∧
    ((∀ q out, engine q = .ok out → List.Sorted (ord q.order) out) →
      ∀ out, generic_filter_order engine predicate none expr = .ok out →
        List.Sorted (ord expr) out) ∧
    (∀ l : Option Int, ∀ ce, engine ⟨predicate, expr, l.getD 100⟩ = .error ce →
      generic_filter_order engine predicate l expr =
        .error DatabaseError.notFound) := by
  refine ⟨rfl, rfl, ?_, ?_, ?_⟩
  · intro hlim
    constructor
    · intro out hout
      unfold generic_filter_order at hout
      cases h : engine ⟨predicate, expr, (none : Option Int).getD 100⟩ with
      | ok rows =>
        rw [h] at hout
        injection hout with hout
        subst hout
        simpa using hlim _ _ h
      | error ce => rw [h] at hout; exact absurd hout (by simp)
    · intro out hout
      unfold generic_filter_order at hout
      cases h : engine ⟨predicate, expr, (some lim).getD 100⟩ with
      | ok rows =>
        rw [h] at hout
        injection hout with hout
        subst hout
        simpa using hlim _ _ h
      | error ce => rw [h] at hout; exact absurd hout (by simp)
  · intro hord out hout
    unfold generic_filter_order at hout
    cases h : engine ⟨predicate, expr, (none : Option Int).getD 100⟩ with
    | ok rows =>
      rw [h] at hout
      injection hout with hout
      subst hout
      simpa using hord _ _ h
    | error ce => rw [h] at hout; exact absurd hout (by simp)
  · intro l ce h
    unfold generic_filter_order
    rw [h]

/-- C7: `find_last_successful_attempt_by_payment_id_merchant_id` fetches
all rows matching `(payment_id, merchant_id, status = Charged)` with no
limit (the filter query is sent with the composite predicate and
`limit = None`), then folds the returned sequence keeping the row with the
maximum `created_at`: for any three matching rows with creation
timestamps T1 < T2 < T3 (in whatever order the engine returns them) it
returns the row with T3, and for an empty matching sequence it fails
`NotFound`. -/
theorem find_last_successful_attempt_policy
    (engine : FilterQuery PredExpr → Except ConnectionError (List PaymentAttempt))
    (payment_id merchant_id : String) :
    (∀ rows, engine ⟨PredExpr.and
        (PredExpr.and (.paymentIdEq payment_id) (.merchantIdEq merchant_id))
        (.statusEq AttemptStatus.charged), none⟩ = .ok rows →
      PaymentAttempt.find_last_successful_attempt_by_payment_id_merchant_id
          engine payment_id merchant_id =
        PaymentAttempt.lastSuccessfulFold rows) ∧
    (engine ⟨PredExpr.and
        (PredExpr.and (.paymentIdEq payment_id) (.merchantIdEq merchant_id))
        (.statusEq AttemptStatus.charged), none⟩ = .ok [] →
      PaymentAttempt.find_last_successful_attempt_by_payment_id_merchant_id
          engine payment_id merchant_id = .error DatabaseError.notFound) ∧
    (∀ r1 r2 r3 rows, engine ⟨PredExpr.and
        (PredExpr.and (.paymentIdEq payment_id) (.merchantIdEq merchant_id))
        (.statusEq AttemptStatus.charged), none⟩ = .ok rows →
      rows.Perm [r1, r2, r3] →
      r1.created_at < r2.created_at → r2.created_at < r3.created_at →
      PaymentAttempt.find_last_successful_attempt_by_payment_id_merchant_id
          engine payment_id merchant_id = .ok r3) := by
  have hmain : ∀ rows, engine ⟨PredExpr.and
      (PredExpr.and (.paymentIdEq payment_id) (.merchantIdEq merchant_id))
      (.statusEq AttemptStatus.charged), none⟩ = .ok rows →
      PaymentAttempt.find_last_successful_attempt_by_payment_id_merchant_id
          engine payment_id merchant_id =
        PaymentAttempt.lastSuccessfulFold rows := by
    intro rows h
    unfold PaymentAttempt.find_last_successful_attempt_by_payment_id_merchant_id
      generic_filter
    rw [h]
  refine ⟨hmain, ?_, ?_⟩
  · intro h
    rw [hmain [] h]
    rfl
  · intro r1 r2 r3 rows h hperm h12 h23
    rw [hmain rows h]
    have hne : rows ≠ [] := by
      intro hcon
      subst hcon
      have := hperm.length_eq
      simp at this
    obtain ⟨m, hm, hmem, hmax⟩ := lastSuccessfulFold_max rows hne
    have hr3 : r3 ∈ rows := hperm.mem_iff.mpr (by simp)
    have hr3le : r3.created_at ≤ m.created_at := hmax r3 hr3
    have hm3 : m ∈ ([r1, r2, r3] : List PaymentAttempt) :=
      hperm.mem_iff.mp hmem
    have : m = r3 := by
      rcases List.mem_cons.mp hm3 with rfl | hm3
      · exact absurd (lt_of_le_of_lt hr3le (lt_trans h12 h23)) (lt_irrefl _)
      · rcases List.mem_cons.mp hm3 with rfl | hm3
        · exact absurd (lt_of_le_of_lt hr3le h23) (lt_irrefl _)
        · rcases List.mem_cons.mp hm3 with rfl | hm3
          · rfl
          · exact absurd hm3 (List.not_mem_nil _)
    rw [hm, this]

/-- C8: `find_latest_by_payment_id_merchant_id` issues the same logical
query twice — once through `generic_filter_order`, whose result is
discarded, and once directly — with identical filter (`merchant_id` and
`payment_id` equality), order (`created_at` descending) and limit (1):
the query value the discarded call hands the engine equals the query value
of the direct call, the method's result equals that of the single
`generic_filter_order` call with those semantics, and for an engine that
honors its limit the result contains at most one row. -/
theorem find_latest_single_query_equivalence
    (engine : OrderedFilterQuery PredExpr OrderExpr →
      Except ConnectionError (List PaymentAttempt))
    (payment_id merchant_id : String) :
    ((⟨PredExpr.and (.merchantIdEq merchant_id) (.paymentIdEq payment_id),
        OrderExpr.createdAtDesc, (some (1 : Int)).getD 100⟩ :
        OrderedFilterQuery PredExpr OrderExpr) =
      ⟨PredExpr.and (.merchantIdEq merchant_id) (.paymentIdEq payment_id),
        OrderExpr.createdAtDesc, 1⟩) ∧
    (PaymentAttempt.find_latest_by_payment_id_merchant_id engine payment_id
        merchant_id =
      generic_filter_order engine
        (PredExpr.and (.merchantIdEq merchant_id) (.paymentIdEq payment_id))
        (some 1) OrderExpr.createdAtDesc) ∧
    ((∀ q out, engine q = .ok out → out.length ≤ q.limit.toNat) →
      ∀ out, PaymentAttempt.find_latest_by_payment_id_merchant_id engine
          payment_id merchant_id = .ok out →
        out.length ≤ 1) := by
  refine ⟨rfl, ?_, ?_⟩
  · unfold PaymentAttempt.find_latest_by_payment_id_merchant_id
      generic_filter_order
    simp only [Option.getD_some]
    cases h : engine ⟨PredExpr.and (.merchantIdEq merchant_id)
        (.paymentIdEq payment_id), OrderExpr.createdAtDesc, 1⟩ <;> rfl
  intro hlim out hout
  unfold PaymentAttempt.find_latest_by_payment_id_merchant_id at hout
  cases h : engine ⟨PredExpr.and (.merchantIdEq merchant_id)
      (.paymentIdEq payment_id), OrderExpr.createdAtDesc, 1⟩ with
  | ok rows =>
    rw [h] at hout
    injection hout with hout
    subst hout
    simpa using hlim _ _ h
  | error ce =>
    rw [h] at hout
    exact absurd hout (by simp)

/-!  Concrete evaluations: each policy above is exercised on explicit
engine outcomes, showing the branch conditions are reachable. -/

/-- Evaluating `generic_delete` on explicit engine outcomes: three rows
deleted yields `true`, zero rows yields `NotFound`, a connection failure
yields `Others`. -/
theorem generic_delete_eval :
    generic_delete (fun _ : Unit => Except.ok 3) () = .ok true ∧
    generic_delete (fun _ : Unit => Except.ok 0) () =
      .error DatabaseError.notFound ∧
    generic_delete (fun _ : Unit => Except.error .otherConnection) () =
      .error DatabaseError.others :=
  ⟨rfl, rfl, rfl⟩

/-- Evaluating `generic_update_by_id` on a query-construction failure with
a fallback lookup that finds the row: the unmodified row comes back as a
success; with a fallback that finds nothing, `NotFound` comes back. -/
theorem generic_update_by_id_eval :
    generic_update_by_id
      (fun _ : UpdateByIdQuery Nat Unit =>
        Except.error (.query .queryBuilderError))
      (fun _ => Except.ok 42) 7 () = .ok 42 ∧
    generic_update_by_id
      (fun _ : UpdateByIdQuery Nat Unit =>
        (Except.error (.query .queryBuilderError) :
          Except ConnectionError Nat))
      (fun _ => Except.error (.query .notFound)) 7 () =
      .error DatabaseError.notFound ∧
    generic_update_by_id
      (fun _ : UpdateByIdQuery Nat Unit => Except.error (.query .notFound))
      (fun _ => Except.ok 42) 7 () = .error DatabaseError.notFound :=
  ⟨rfl, rfl, rfl⟩

/-- Evaluating the optional lookup wrappers: the engine's `NotFound`
becomes `Ok(None)`, a connection failure stays an error (`Others`), and a
found row becomes `Ok(Some(row))`. -/
theorem find_one_optional_eval :
    generic_find_one_optional
      (fun _ : Unit => (Except.error (.query .notFound) :
        Except ConnectionError Nat)) () = .ok none ∧
    generic_find_one_optional
      (fun _ : Unit => (Except.error .otherConnection :
        Except ConnectionError Nat)) () = .error DatabaseError.others ∧
    generic_find_one_optional
      (fun _ : Unit => (Except.ok 5 : Except ConnectionError Nat)) () =
      .ok (some 5) :=
  ⟨rfl, rfl, rfl⟩

/-- Evaluating `PaymentAttempt::update` on explicit engine outcomes: an
engine failure surfaces as `Others` (never as the absorbed
`NoFieldsToUpdate`), an empty updated-row vector surfaces as `NotFound`,
and a two-row vector hands back the second row. -/
theorem payment_attempt_update_eval :
    PaymentAttempt.update ⟨"pay", "mer", "att", "ctx", .charged, 0⟩
      (fun _ => Except.error .otherConnection) ⟨[]⟩ =
      .error DatabaseError.others ∧
    PaymentAttempt.update ⟨"pay", "mer", "att", "ctx", .charged, 0⟩
      (fun _ => Except.ok []) ⟨[]⟩ = .error DatabaseError.notFound ∧
    PaymentAttempt.update ⟨"pay", "mer", "att", "ctx", .charged, 0⟩
      (fun _ => Except.ok [⟨"pay", "mer", "a1", "ctx", .charged, 1⟩,
        ⟨"pay", "mer", "a2", "ctx", .charged, 2⟩]) ⟨[]⟩ =
      .ok ⟨"pay", "mer", "a2", "ctx", .charged, 2⟩ :=
  ⟨rfl, rfl, rfl⟩

/-- Evaluating the in-memory fold on three out-of-order rows with
creation timestamps 1 < 2 < 3: the row with timestamp 3 wins; on no rows
it folds to `NotFound`. -/
theorem lastSuccessfulFold_eval :
    PaymentAttempt.lastSuccessfulFold
      [⟨"p", "m", "a1", "c", .charged, 1⟩,
       ⟨"p", "m", "a3", "c", .charged, 3⟩,
       ⟨"p", "m", "a2", "c", .charged, 2⟩] =
      .ok ⟨"p", "m", "a3", "c", .charged, 3⟩ ∧
    PaymentAttempt.lastSuccessfulFold [] = .error DatabaseError.notFound := by
  constructor
  · simp [PaymentAttempt.lastSuccessfulFold, PaymentAttempt.lastSuccessfulStep]
  · rfl
